import Mathlib

/-!
Verification of the tabular-statistics core of the `dfd` (datasheet-for-dataset)
package: the `TabularStatistics` record, the two engine strategies
(`PolarsTabularAnalyses`, `PandasTabularAnalyses`), the `TabularDataContext`
dispatcher, and the caching layer of `Datasheet`.

Numeric values are modelled as exact rationals (`ℚ`).  The one place where the
source produces an irrational number is the sample standard deviation
(`sqrt` of the sample variance); the record therefore stores the *square* of
the standard deviation (`std_val_sq`), and statements about the standard
deviation are phrased through that square.  A dedicated computable formatter
(`fmtSqrt4`) renders the 4-decimal rounding of the square root where the
source renders the standard deviation itself.
-/

namespace DfD

/-- Embedding of `TabularStatistics` (src/dfd/dataset/analyses.py).  All
numeric fields are optional floats in the source, modelled as `Option ℚ`.
The source field `std_val` holds the sample standard deviation; since that is
the square root of a rational, this embedding stores its square in
`std_val_sq` (so source `std_val = Real.sqrt std_val_sq` pointwise), keeping
every definition computable. -/
structure TabularStatistics where
  column_name : String
  count : Option ℚ := none
  highest_quantile : Option ℚ := none
  middle_quantile : Option ℚ := none
  lowest_quantile : Option ℚ := none
  max_val : Option ℚ := none
  min_val : Option ℚ := none
  mean_val : Option ℚ := none
  std_val_sq : Option ℚ := none
deriving Repr, DecidableEq

/-- Column payload of a dataframe: a numeric column with nullable cells, or a
non-numeric (text/categorical) column with nullable cells.  Both engines are
fed the same logical content. -/
inductive ColData where
  | numeric (cells : List (Option ℚ))
  | text (cells : List (Option String))
deriving Repr, DecidableEq

/-- Whether the column dtype is numeric (`series.dtype.is_numeric()` in
polars; numeric vs object dtype in pandas). -/
def ColData.isNumeric : ColData → Bool
  | .numeric _ => true
  | .text _ => false

/-- A dataframe: named columns in order. -/
abbrev Frame := List (String × ColData)

/-- Embedding of `drop_nulls` / null-skipping: the non-null cells in order. -/
def dropNulls (cells : List (Option α)) : List α :=
  cells.filterMap id

/-- Ascending sort of the values, used to evaluate order statistics. -/
def sortAsc (nn : List ℚ) : List ℚ :=
  nn.insertionSort (· ≤ ·)

/-- Mean of the non-null values (`non_null.mean()` / pandas `mean` row). -/
def meanQ (nn : List ℚ) : ℚ :=
  nn.sum / (nn.length : ℚ)

/-- Sample variance with `ddof = 1` (both engines default to this):
`Σ (x - mean)² / (n - 1)`. -/
def sampleVarQ (nn : List ℚ) : ℚ :=
  ((nn.map (fun x => (x - meanQ nn) ^ 2)).sum) / ((nn.length : ℚ) - 1)

/-- Square of the engines' standard deviation of the non-null values.  Both
engines return a null/NaN standard deviation when fewer than two values are
available (`n - ddof ≤ 0`), which surfaces as an absent field after
harmonization. -/
def stdSqQ (nn : List ℚ) : Option ℚ :=
  if 2 ≤ nn.length then some (sampleVarQ nn) else none

/-- Minimum of the non-null values (`non_null.min()` / pandas `min` row),
evaluated as the head of the ascending sort. -/
def listMinQ (nn : List ℚ) : Option ℚ :=
  (sortAsc nn).head?

/-- Maximum of the non-null values (`non_null.max()` / pandas `max` row),
evaluated as the last element of the ascending sort. -/
def listMaxQ (nn : List ℚ) : Option ℚ :=
  (sortAsc nn).getLast?

/-- Index used by the polars `nearest` quantile interpolation: the position
`q * (n - 1)` rounded half away from zero (Rust `f64::round`; the position is
non-negative here, so this is `⌊pos + 1/2⌋`). -/
def nearestIdx (q : ℚ) (n : ℕ) : ℕ :=
  (⌊q * ((n : ℚ) - 1) + 1 / 2⌋).toNat

/-- Embedding of the `quantile` closure of `PolarsTabularAnalyses.describe`
(src/dfd/dataset/polars_strategy.py): `None` on an empty column, otherwise
`non_null.quantile(q, interpolation='nearest')`. -/
def plQuantile (nn : List ℚ) (q : ℚ) : Option ℚ :=
  if nn.length = 0 then none
  else some ((sortAsc nn).getD (nearestIdx q nn.length) 0)

/-- The linear-interpolation quantile used by the pandas `describe`
percentile rows: with `pos = q * (n - 1)`, `i = ⌊pos⌋` and
`frac = pos - i`, the value is `s[i] + frac * (s[i+1] - s[i])` on the sorted
values (upper index clamped to `n - 1`). -/
def pdQuantile (nn : List ℚ) (q : ℚ) : Option ℚ :=
  if nn.length = 0 then none
  else
    let s := sortAsc nn
    let pos : ℚ := q * ((nn.length : ℚ) - 1)
    let i : ℕ := (⌊pos⌋).toNat
    let j : ℕ := min (i + 1) (nn.length - 1)
    let frac : ℚ := pos - (i : ℚ)
    some (s.getD i 0 + frac * (s.getD j 0 - s.getD i 0))

/-- Embedding of the per-column body of `PolarsTabularAnalyses.describe`
(src/dfd/dataset/polars_strategy.py, lines 26-70): count the non-null
values; when the dtype is numeric and at least one non-null value exists,
compute mean, std, min, max and the three `nearest` quantiles over the
non-null values, otherwise leave every field but the count absent. -/
def polarsDescribeColumn : String × ColData → TabularStatistics
  | (name, ColData.numeric cells) =>
    let nn := dropNulls cells
    if 0 < nn.length then
      { column_name := name
        count := some (nn.length : ℚ)
        highest_quantile := plQuantile nn (3 / 4)
        middle_quantile := plQuantile nn (1 / 2)
        lowest_quantile := plQuantile nn (1 / 4)
        max_val := listMaxQ nn
        min_val := listMinQ nn
        mean_val := some (meanQ nn)
        std_val_sq := stdSqQ nn }
    else
      { column_name := name, count := some 0 }
  | (name, ColData.text cells) =>
    { column_name := name, count := some ((dropNulls cells).length : ℚ) }

/-- Embedding of `PolarsTabularAnalyses.describe`: one record per column, in
column order. -/
def PolarsTabularAnalyses.describe (data : Frame) : List TabularStatistics :=
  data.map polarsDescribeColumn

/-- Python exception outcomes relevant to this core. -/
inductive PyError where
  | valueError (msg : String)
  | typeError (msg : String)
  | attributeError (msg : String)
deriving Repr, DecidableEq

/-- Row labels of the pandas `describe(include='all')` summary index.  The
index is the union of the label sets contributed by the column dtypes:
numeric columns contribute `count, mean, std, min, 25%, 50%, 75%, max`,
object columns contribute `count, unique, top, freq`. -/
def pdIndexLabels (hasNum hasObj : Bool) : List String :=
  if hasNum && hasObj then
    ["count", "unique", "top", "freq", "mean", "std", "min", "25%", "50%", "75%", "max"]
  else if hasNum then
    ["count", "mean", "std", "min", "25%", "50%", "75%", "max"]
  else
    ["count", "unique", "top", "freq"]

/-- Summary cell of a numeric column in the pandas describe table, after the
`statistics.where(statistics.notna(), None)` pass replaced every NaN by
`None`.  The `unique/top/freq` rows of a numeric column are NaN and are never
read by the extraction, hence `none` here.  The std cell stores the square of
the standard deviation (see `TabularStatistics.std_val_sq`). -/
def pdNumericCell (nn : List ℚ) (label : String) : Option ℚ :=
  if label = "count" then some (nn.length : ℚ)
  else if nn.length = 0 then none
  else if label = "mean" then some (meanQ nn)
  else if label = "std" then stdSqQ nn
  else if label = "min" then listMinQ nn
  else if label = "25%" then pdQuantile nn (1 / 4)
  else if label = "50%" then pdQuantile nn (1 / 2)
  else if label = "75%" then pdQuantile nn (3 / 4)
  else if label = "max" then listMaxQ nn
  else none

/-- Summary cell of an object (non-numeric) column: only the `count` row is a
number that the extraction ever reads; every one of the eight extracted
labels other than `count` is NaN for an object column (hence `none` after the
`where(notna(), None)` pass), and `unique/top/freq` are never extracted. -/
def pdTextCell (cells : List (Option String)) (label : String) : Option ℚ :=
  if label = "count" then some ((dropNulls cells).length : ℚ)
  else none

/-- Shape of `data.describe(include='all')` after NaN-to-None replacement: the
shared row-label index and, per column, the label-to-cell mapping. -/
structure DescribeSummary where
  indexLabels : List String
  columns : List (String × (String → Option ℚ))

/-- Summary column of the describe table for one dataframe column. -/
def pdCellOf : ColData → String → Option ℚ
  | ColData.numeric cells => pdNumericCell (dropNulls cells)
  | ColData.text cells => pdTextCell cells

/-- Embedding of the pandas `data.describe(include='all')` call followed by
`statistics.where(statistics.notna(), None)`
(src/dfd/dataset/pandas_strategy.py, lines 27-28).  Pandas raises
`ValueError("Cannot describe a DataFrame without columns")` on a dataframe
with no columns; otherwise the summary covers every column in order. -/
def pandasDescribeSummary (data : Frame) : Except PyError DescribeSummary :=
  if data.isEmpty then
    .error (.valueError "Cannot describe a DataFrame without columns")
  else
    .ok
      { indexLabels :=
          pdIndexLabels (data.any (fun c => c.2.isNumeric)) (data.any (fun c => !c.2.isNumeric))
        columns := data.map (fun c => (c.1, pdCellOf c.2)) }

/-- Embedding of the `pick` closure of `PandasTabularAnalyses._to_statistics`
(src/dfd/dataset/pandas_strategy.py, lines 43-49): a label absent from the
summary index yields `None` instead of raising; otherwise the cell is read,
with NaN cells already harmonized to `None` (the `pd.isna` branch). -/
def pick (indexLabels : List String) (series : String → Option ℚ) (label : String) : Option ℚ :=
  if label ∈ indexLabels then series label else none

/-- Record built by one iteration of the loop in
`PandasTabularAnalyses._to_statistics` (src/dfd/dataset/pandas_strategy.py,
lines 51-61). -/
def pandasRecordOf (indexLabels : List String) (c : String × (String → Option ℚ)) :
    TabularStatistics :=
  { column_name := c.1
    count := pick indexLabels c.2 "count"
    highest_quantile := pick indexLabels c.2 "75%"
    middle_quantile := pick indexLabels c.2 "50%"
    lowest_quantile := pick indexLabels c.2 "25%"
    max_val := pick indexLabels c.2 "max"
    min_val := pick indexLabels c.2 "min"
    mean_val := pick indexLabels c.2 "mean"
    std_val_sq := pick indexLabels c.2 "std" }

/-- Embedding of the per-column record construction of
`PandasTabularAnalyses._to_statistics`. -/
def pandasToStatistics (summary : DescribeSummary) : List TabularStatistics :=
  summary.columns.map (pandasRecordOf summary.indexLabels)

/-- Embedding of `PandasTabularAnalyses.describe`
(src/dfd/dataset/pandas_strategy.py, lines 18-29). -/
def PandasTabularAnalyses.describe (data : Frame) : Except PyError (List TabularStatistics) :=
  (pandasDescribeSummary data).map pandasToStatistics

/-- The concrete scenario dataframe of the spec: `{a: [1, 2], b: [A, B]}`. -/
def exampleFrame : Frame :=
  [("a", ColData.numeric [some 1, some 2]),
   ("b", ColData.text [some "A", some "B"])]

/-- Decimal digits of `n` left-padded with zeros to the given width. -/
def padZeros (width : ℕ) (n : ℕ) : String :=
  let s := toString n
  String.mk (List.replicate (width - s.length) '0') ++ s

/-- Rendering of the Python format spec `.4f` applied to a float: the value
rounded to four decimal places.  Python rounds the tie of the underlying
binary double to even; every value this development renders is exact at four
decimals, where the two rounding rules agree, so half-up is used. -/
def fmt4 (x : ℚ) : String :=
  let n : ℕ := (⌊|x| * 10000 + 1 / 2⌋).toNat
  let body := toString (n / 10000) ++ "." ++ padZeros 4 (n % 10000)
  if x < 0 then "-" ++ body else body

/-- Value of `round(sqrt(v) * 10000)` for a non-negative rational radicand,
computed with integer square roots: the least `n` such that
`√(v·10⁸) + 1/2 < n + 1`. -/
def sqrtRound4 (v : ℚ) : ℕ :=
  let t : ℚ := v * 100000000
  let b := Nat.sqrt (⌊t⌋).toNat
  if ((2 * b + 1 : ℕ) : ℚ) ^ 2 ≤ 4 * t then b + 1 else b

/-- Rendering of the Python format spec `.4f` applied to `sqrt(v)`: used where
the source formats the standard deviation (stored squared in this embedding,
see `TabularStatistics.std_val_sq`). -/
def fmtSqrt4 (v : ℚ) : String :=
  let n := sqrtRound4 v
  toString (n / 10000) ++ "." ++ padZeros 4 (n % 10000)

/-- Number of decimal digits needed after the point: the least `k` (below
the fuel bound) with `(y * 10 ^ k).den = 1`. -/
def decExp : ℕ → ℚ → Option ℕ
  | 0, _ => none
  | fuel + 1, y => if y.den = 1 then some 0 else (decExp fuel (y * 10)).map (· + 1)

/-- Rendering of the Python default string conversion of a float, for floats
whose shortest round-trip representation is their exact decimal expansion
(every value rendered through this path in the development is such a value;
the final branch is unreachable for them). -/
def pyFloatRepr (x : ℚ) : String :=
  let sign := if x < 0 then "-" else ""
  let y : ℚ := |x|
  match decExp 18 y with
  | some 0 => sign ++ toString y.num ++ ".0"
  | some k =>
    let m := (y * 10 ^ k).num.toNat
    sign ++ toString (m / 10 ^ k) ++ "." ++ padZeros k (m % 10 ^ k)
  | none => sign ++ toString y.num ++ "div" ++ toString y.den

/-- Rendering of the f-string interpolation of an optional float: Python
prints the `None` object as the literal `None`. -/
def optFloatRepr : Option ℚ → String
  | none => "None"
  | some v => pyFloatRepr v

/-- Embedding of the `TabularStatistics.markdown` property
(src/dfd/dataset/analyses.py, lines 27-53) as the list of emitted lines: the
column header and the count line are unconditional; each remaining field
appends a line only when the value is present; mean and standard deviation
are formatted with `.4f`, the other fields with the default conversion. -/
def TabularStatistics.markdownLines (r : TabularStatistics) : List String :=
  let lines := ["**Column: " ++ r.column_name ++ "**", "- Count: " ++ optFloatRepr r.count]
  let lines := match r.mean_val with
    | some v => lines ++ ["- Mean: " ++ fmt4 v]
    | none => lines
  let lines := match r.std_val_sq with
    | some v => lines ++ ["- Standard Deviation: " ++ fmtSqrt4 v]
    | none => lines
  let lines := match r.min_val with
    | some v => lines ++ ["- Min: " ++ pyFloatRepr v]
    | none => lines
  let lines := match r.max_val with
    | some v => lines ++ ["- Max: " ++ pyFloatRepr v]
    | none => lines
  let lines := match r.lowest_quantile with
    | some v => lines ++ ["- 25th Percentile: " ++ pyFloatRepr v]
    | none => lines
  let lines := match r.middle_quantile with
    | some v => lines ++ ["- Median: " ++ pyFloatRepr v]
    | none => lines
  match r.highest_quantile with
  | some v => lines ++ ["- 75th Percentile: " ++ pyFloatRepr v]
  | none => lines

/-- The joined markdown string returned by the source property. -/
def TabularStatistics.markdown (r : TabularStatistics) : String :=
  String.intercalate "\n" r.markdownLines

/-- Embedding of `_format_number` (src/dfd/datasheet/compiler.py, lines
17-30), as applied to the optional float fields of a statistics record: an
absent value renders as the placeholder, a float renders with `.4f` (the
trailing non-float branch of the source is unreachable for float fields). -/
def formatNumber : Option ℚ → String
  | none => "N/A"
  | some v => fmt4 v

/-- Statement-side restatement of the amended markdown contract: header and
count lines unconditionally, then one line per present field in the fixed
order mean, std, min, max, 25th, median, 75th, with the formatter each field
uses in the source.  Compared against the code-shaped
`TabularStatistics.markdownLines`. -/
def markdownContractLines (r : TabularStatistics) : List String :=
  ["**Column: " ++ r.column_name ++ "**", "- Count: " ++ optFloatRepr r.count] ++
    List.filterMap id
      [r.mean_val.map (fun v => "- Mean: " ++ fmt4 v),
       r.std_val_sq.map (fun v => "- Standard Deviation: " ++ fmtSqrt4 v),
       r.min_val.map (fun v => "- Min: " ++ pyFloatRepr v),
       r.max_val.map (fun v => "- Max: " ++ pyFloatRepr v),
       r.lowest_quantile.map (fun v => "- 25th Percentile: " ++ pyFloatRepr v),
       r.middle_quantile.map (fun v => "- Median: " ++ pyFloatRepr v),
       r.highest_quantile.map (fun v => "- 75th Percentile: " ++ pyFloatRepr v)]

/-- The possible values of the `strategy` argument of `TabularDataContext`
and the `analysis` argument of `Datasheet`: a concrete strategy instance, a
string specifier token, or the Python `None` object. -/
inductive StrategyArg where
  | pandasInstance
  | polarsInstance
  | token (s : String)
  | noneArg
deriving Repr, DecidableEq

/-- A Python object handed to `calculate_tabular_statistics`: a pandas
dataframe, a polars dataframe, or an unrelated object of some other runtime
type. -/
inductive FrameObj where
  | pandasDF (data : Frame)
  | polarsDF (data : Frame)
  | otherObj (typeName : String)
deriving Repr, DecidableEq

/-- Embedding of `TabularDataContext` (src/dfd/dataset/analyses.py, lines
111-154): the constructor stores the argument, nothing more. -/
structure TabularDataContext where
  stored_strategy : StrategyArg
deriving Repr, DecidableEq

/-- The constructor `TabularDataContext.__init__`: stores the argument with
no validation of any kind. -/
def TabularDataContext.init (strategy : StrategyArg) : TabularDataContext :=
  { stored_strategy := strategy }

/-- The `strategy` property getter: returns the stored value unchanged. -/
def TabularDataContext.strategy (ctx : TabularDataContext) : StrategyArg :=
  ctx.stored_strategy

/-- Outcome of the attribute access plus call `strategy.describe(data)`: a
strategy instance dispatches to its engine (raising a type error when handed
the other engine's frame, since the engine operations reject the foreign
type); a string or `None` has no `describe` attribute, so Python raises an
`AttributeError` before any data is touched. -/
def strategyDescribe : StrategyArg → FrameObj → Except PyError (List TabularStatistics)
  | .pandasInstance, .pandasDF data => PandasTabularAnalyses.describe data
  | .polarsInstance, .polarsDF data => .ok (PolarsTabularAnalyses.describe data)
  | .pandasInstance, _ => .error (.typeError "pandas describe applied to a foreign object")
  | .polarsInstance, _ => .error (.typeError "polars describe applied to a foreign object")
  | .token _, _ => .error (.attributeError "str object has no attribute describe")
  | .noneArg, _ => .error (.attributeError "NoneType object has no attribute describe")

/-- Embedding of `TabularDataContext.calculate_tabular_statistics`
(src/dfd/dataset/analyses.py, lines 145-154): `self._strategy.describe(data)`
with no resolution, validation, or type inspection beforehand. -/
def TabularDataContext.calculate_tabular_statistics (ctx : TabularDataContext)
    (data : FrameObj) : Except PyError (List TabularStatistics) :=
  strategyDescribe ctx.stored_strategy data

/-- Embedding of the `Datasheet` state (src/dfd/create.py, lines 29-42):
the dataset, the analysis specifier handed to the stored context, and the
statistics cache, initially empty. -/
structure Datasheet where
  data : FrameObj
  analysis_specifier : StrategyArg
  stats_cache : Option (List TabularStatistics)
deriving Repr, DecidableEq

/-- The `Datasheet.__init__` constructor: stores the data and specifier,
builds the context from the specifier, and starts with an empty cache. -/
def Datasheet.init (data : FrameObj) (analysis : StrategyArg) : Datasheet :=
  { data := data, analysis_specifier := analysis, stats_cache := none }

/-- The `statistics` property: the cached list, if any. -/
def Datasheet.statistics (d : Datasheet) : Option (List TabularStatistics) :=
  d.stats_cache

/-- Embedding of `Datasheet._run_analyses` (src/dfd/create.py, lines
139-142): computes statistics through the stored context and overwrites the
cache; an exception propagates and leaves the cache untouched. -/
def Datasheet.run_analyses (d : Datasheet) :
    Except PyError (List TabularStatistics × Datasheet) :=
  match (TabularDataContext.init d.analysis_specifier).calculate_tabular_statistics d.data with
  | .error e => .error e
  | .ok stats => .ok (stats, { d with stats_cache := some stats })

/-- Embedding of `Datasheet.analyse` (src/dfd/create.py, lines 144-146):
delegates to `_run_analyses` unconditionally. -/
def Datasheet.analyse (d : Datasheet) :
    Except PyError (List TabularStatistics × Datasheet) :=
  d.run_analyses

/-- Embedding of `Datasheet.ensure_statistics` (src/dfd/create.py, lines
152-156): returns the cache when present, otherwise runs the analysis. -/
def Datasheet.ensure_statistics (d : Datasheet) :
    Except PyError (List TabularStatistics × Datasheet) :=
  match d.stats_cache with
  | some s => .ok (s, d)
  | none => d.run_analyses

/-! Facts about the sorted view of the non-null values. -/

theorem sortAsc_length (nn : List ℚ) : (sortAsc nn).length = nn.length :=
  (List.perm_insertionSort (· ≤ ·) nn).length_eq

theorem sortAsc_sorted (nn : List ℚ) : List.Sorted (· ≤ ·) (sortAsc nn) :=
  List.sorted_insertionSort (· ≤ ·) nn

theorem sortAsc_ne_nil {nn : List ℚ} (h : nn ≠ []) : sortAsc nn ≠ [] := by
  intro hs
  apply h
  have := sortAsc_length nn
  rw [hs] at this
  exact List.length_eq_zero.mp this.symm

theorem getD_eq_get (s : List ℚ) (i : ℕ) (h : i < s.length) :
    s.getD i 0 = s.get ⟨i, h⟩ := by
  simp [List.getD_eq_getElem?_getD, List.getElem?_eq_getElem h]

theorem sorted_getD_mono {s : List ℚ} (hs : List.Sorted (· ≤ ·) s) {i j : ℕ}
    (hij : i ≤ j) (hj : j < s.length) : s.getD i 0 ≤ s.getD j 0 := by
  have hi : i < s.length := lt_of_le_of_lt hij hj
  rw [getD_eq_get s i hi, getD_eq_get s j hj]
  exact hs.rel_get_of_le hij

theorem head?_eq_getD {s : List ℚ} (h : s ≠ []) : s.head? = some (s.getD 0 0) := by
  cases s with
  | nil => exact absurd rfl h
  | cons a t => rfl

theorem getLast?_eq_getD {s : List ℚ} (h : s ≠ []) :
    s.getLast? = some (s.getD (s.length - 1) 0) := by
  have hl : s.length - 1 < s.length := by
    have := List.length_pos.mpr h
    omega
  rw [List.getLast?_eq_getElem?, List.getElem?_eq_getElem hl]
  simp [List.getD_eq_getElem?_getD, List.getElem?_eq_getElem hl]

/-! Facts about floors of non-negative rationals, as natural indices. -/

theorem floor_toNat_le {x : ℚ} (hx : 0 ≤ x) : ((⌊x⌋.toNat : ℕ) : ℚ) ≤ x := by
  have h0 : (0 : ℤ) ≤ ⌊x⌋ := Int.floor_nonneg.mpr hx
  have hcast : ((⌊x⌋.toNat : ℕ) : ℚ) = ((⌊x⌋ : ℤ) : ℚ) := by
    exact_mod_cast congrArg (fun z : ℤ => (z : ℚ)) (Int.toNat_of_nonneg h0)
  rw [hcast]
  exact Int.floor_le x

theorem lt_floor_toNat_add_one {x : ℚ} (hx : 0 ≤ x) : x < ((⌊x⌋.toNat : ℕ) : ℚ) + 1 := by
  have h0 : (0 : ℤ) ≤ ⌊x⌋ := Int.floor_nonneg.mpr hx
  have hcast : ((⌊x⌋.toNat : ℕ) : ℚ) = ((⌊x⌋ : ℤ) : ℚ) := by
    exact_mod_cast congrArg (fun z : ℤ => (z : ℚ)) (Int.toNat_of_nonneg h0)
  rw [hcast]
  exact_mod_cast Int.lt_floor_add_one x

theorem floor_toNat_le_nat {x : ℚ} {m : ℕ} (hx : x ≤ (m : ℚ)) : ⌊x⌋.toNat ≤ m := by
  have h1 : ⌊x⌋ ≤ ⌊(m : ℚ)⌋ := Int.floor_mono hx
  rw [Int.floor_natCast] at h1
  omega

theorem floor_toNat_mono {x y : ℚ} (hxy : x ≤ y) : ⌊x⌋.toNat ≤ ⌊y⌋.toNat := by
  have := Int.floor_mono hxy
  omega

/-! Facts about the polars nearest-interpolation quantile. -/

theorem cast_sub_one_nonneg {n : ℕ} (hn : 1 ≤ n) : (0 : ℚ) ≤ (n : ℚ) - 1 := by
  have : (1 : ℚ) ≤ (n : ℚ) := by exact_mod_cast hn
  linarith

theorem cast_pred_eq {n : ℕ} (hn : 1 ≤ n) : ((n - 1 : ℕ) : ℚ) = (n : ℚ) - 1 := by
  push_cast [hn]
  ring

theorem nearestIdx_le {q : ℚ} (hq1 : q ≤ 1) {n : ℕ} (hn : 1 ≤ n) :
    nearestIdx q n ≤ n - 1 := by
  unfold nearestIdx
  have hc : (0 : ℚ) ≤ (n : ℚ) - 1 := cast_sub_one_nonneg hn
  have h1 : q * ((n : ℚ) - 1) ≤ (n : ℚ) - 1 := mul_le_of_le_one_left hc hq1
  have h2 : q * ((n : ℚ) - 1) + 1 / 2 ≤ ((n - 1 : ℕ) : ℚ) + 1 / 2 := by
    rw [cast_pred_eq hn]
    linarith
  have h3 := Int.floor_mono h2
  have h4 : ⌊((n - 1 : ℕ) : ℚ) + 1 / 2⌋ = ((n - 1 : ℕ) : ℤ) := by
    rw [add_comm, Int.floor_add_nat, Int.floor_eq_zero_iff.mpr (by constructor <;> norm_num)]
    ring
  rw [h4] at h3
  omega

theorem nearestIdx_mono {q₁ q₂ : ℚ} {n : ℕ} (hn : 1 ≤ n) (h : q₁ ≤ q₂) :
    nearestIdx q₁ n ≤ nearestIdx q₂ n := by
  unfold nearestIdx
  have hc : (0 : ℚ) ≤ (n : ℚ) - 1 := cast_sub_one_nonneg hn
  exact floor_toNat_mono (by nlinarith)

theorem plQuantile_eq {nn : List ℚ} (h : nn ≠ []) (q : ℚ) :
    plQuantile nn q = some ((sortAsc nn).getD (nearestIdx q nn.length) 0) := by
  unfold plQuantile
  rw [if_neg (by simpa [List.length_eq_zero] using h)]

/-- The ordering chain of the polars record: minimum, 25th, 50th, 75th
quantile and maximum of a non-empty value list are produced in
non-decreasing order. -/
theorem polars_chain {nn : List ℚ} (h : nn ≠ []) :
    ∃ mn lq mq hq mx,
      listMinQ nn = some mn ∧ plQuantile nn (1 / 4) = some lq ∧
        plQuantile nn (1 / 2) = some mq ∧ plQuantile nn (3 / 4) = some hq ∧
          listMaxQ nn = some mx ∧ mn ≤ lq ∧ lq ≤ mq ∧ mq ≤ hq ∧ hq ≤ mx := by
  have hn : 1 ≤ nn.length := List.length_pos.mpr h
  have hs := sortAsc_sorted nn
  have hsl := sortAsc_length nn
  have hsn : sortAsc nn ≠ [] := sortAsc_ne_nil h
  have hlast : nn.length - 1 < (sortAsc nn).length := by omega
  refine ⟨(sortAsc nn).getD 0 0, (sortAsc nn).getD (nearestIdx (1 / 4) nn.length) 0,
    (sortAsc nn).getD (nearestIdx (1 / 2) nn.length) 0,
    (sortAsc nn).getD (nearestIdx (3 / 4) nn.length) 0,
    (sortAsc nn).getD (nn.length - 1) 0,
    head?_eq_getD hsn, plQuantile_eq h _, plQuantile_eq h _, plQuantile_eq h _, ?_, ?_, ?_, ?_, ?_⟩
  · rw [listMaxQ, getLast?_eq_getD hsn, hsl]
  · exact sorted_getD_mono hs (Nat.zero_le _)
      (by have := nearestIdx_le (by norm_num) hn (q := 1 / 4); omega)
  · exact sorted_getD_mono hs (nearestIdx_mono hn (by norm_num))
      (by have := nearestIdx_le (by norm_num) hn (q := 1 / 2); omega)
  · exact sorted_getD_mono hs (nearestIdx_mono hn (by norm_num))
      (by have := nearestIdx_le (by norm_num) hn (q := 3 / 4); omega)
  · exact sorted_getD_mono hs (nearestIdx_le (by norm_num) hn) hlast

/-! Facts about the pandas linear-interpolation quantile. -/

theorem pdQuantile_eq {nn : List ℚ} (h : nn ≠ []) (q : ℚ) :
    pdQuantile nn q =
      some ((sortAsc nn).getD (⌊q * ((nn.length : ℚ) - 1)⌋).toNat 0 +
        (q * ((nn.length : ℚ) - 1) - ((⌊q * ((nn.length : ℚ) - 1)⌋).toNat : ℚ)) *
          ((sortAsc nn).getD (min ((⌊q * ((nn.length : ℚ) - 1)⌋).toNat + 1) (nn.length - 1)) 0 -
            (sortAsc nn).getD (⌊q * ((nn.length : ℚ) - 1)⌋).toNat 0)) := by
  unfold pdQuantile
  rw [if_neg (by simpa [List.length_eq_zero] using h)]

theorem pdQuantile_pieces {nn : List ℚ} (h : nn ≠ []) {q : ℚ} (h0 : 0 ≤ q) (h1 : q ≤ 1) :
    ∃ v, pdQuantile nn q = some v ∧
      (sortAsc nn).getD (⌊q * ((nn.length : ℚ) - 1)⌋).toNat 0 ≤ v ∧
        v ≤ (sortAsc nn).getD
          (min ((⌊q * ((nn.length : ℚ) - 1)⌋).toNat + 1) (nn.length - 1)) 0 := by
  have hn : 1 ≤ nn.length := List.length_pos.mpr h
  have hs := sortAsc_sorted nn
  have hsl := sortAsc_length nn
  have hc : (0 : ℚ) ≤ (nn.length : ℚ) - 1 := cast_sub_one_nonneg hn
  have hpos0 : 0 ≤ q * ((nn.length : ℚ) - 1) := mul_nonneg h0 hc
  have hposle : q * ((nn.length : ℚ) - 1) ≤ ((nn.length - 1 : ℕ) : ℚ) := by
    rw [cast_pred_eq hn]
    exact mul_le_of_le_one_left hc h1
  have hi_le : (⌊q * ((nn.length : ℚ) - 1)⌋).toNat ≤ nn.length - 1 := floor_toNat_le_nat hposle
  have hij : (⌊q * ((nn.length : ℚ) - 1)⌋).toNat ≤
      min ((⌊q * ((nn.length : ℚ) - 1)⌋).toNat + 1) (nn.length - 1) :=
    le_min (Nat.le_succ _) hi_le
  have hjlt : min ((⌊q * ((nn.length : ℚ) - 1)⌋).toNat + 1) (nn.length - 1) <
      (sortAsc nn).length := by
    have := min_le_right ((⌊q * ((nn.length : ℚ) - 1)⌋).toNat + 1) (nn.length - 1)
    omega
  have hab := sorted_getD_mono hs hij hjlt
  have hfrac0 : 0 ≤ q * ((nn.length : ℚ) - 1) - ((⌊q * ((nn.length : ℚ) - 1)⌋).toNat : ℚ) :=
    sub_nonneg.mpr (floor_toNat_le hpos0)
  have hfrac1 : q * ((nn.length : ℚ) - 1) - ((⌊q * ((nn.length : ℚ) - 1)⌋).toNat : ℚ) ≤ 1 := by
    have := lt_floor_toNat_add_one hpos0
    linarith
  refine ⟨_, pdQuantile_eq h q, ?_, ?_⟩
  · nlinarith [mul_nonneg hfrac0 (sub_nonneg.mpr hab)]
  · nlinarith [mul_nonneg (sub_nonneg.mpr hfrac1) (sub_nonneg.mpr hab)]

theorem pdQuantile_mono {nn : List ℚ} (h : nn ≠ []) {q₁ q₂ : ℚ}
    (h0 : 0 ≤ q₁) (h12 : q₁ ≤ q₂) (h1 : q₂ ≤ 1) :
    ∃ v₁ v₂, pdQuantile nn q₁ = some v₁ ∧ pdQuantile nn q₂ = some v₂ ∧ v₁ ≤ v₂ := by
  have hn : 1 ≤ nn.length := List.length_pos.mpr h
  have hs := sortAsc_sorted nn
  have hsl := sortAsc_length nn
  have hc : (0 : ℚ) ≤ (nn.length : ℚ) - 1 := cast_sub_one_nonneg hn
  have hposmono : q₁ * ((nn.length : ℚ) - 1) ≤ q₂ * ((nn.length : ℚ) - 1) :=
    mul_le_mul_of_nonneg_right h12 hc
  have himono : (⌊q₁ * ((nn.length : ℚ) - 1)⌋).toNat ≤ (⌊q₂ * ((nn.length : ℚ) - 1)⌋).toNat :=
    floor_toNat_mono hposmono
  obtain ⟨v₁, hv₁, hlo₁, hhi₁⟩ := pdQuantile_pieces h h0 (le_trans h12 h1)
  obtain ⟨v₂, hv₂, hlo₂, hhi₂⟩ := pdQuantile_pieces h (le_trans h0 h12) h1
  rcases Nat.lt_or_ge (⌊q₁ * ((nn.length : ℚ) - 1)⌋).toNat
      (⌊q₂ * ((nn.length : ℚ) - 1)⌋).toNat with hlt | hge
  · -- distinct base indices: go through the upper end of the first segment
    have hposle₂ : q₂ * ((nn.length : ℚ) - 1) ≤ ((nn.length - 1 : ℕ) : ℚ) := by
      rw [cast_pred_eq hn]
      exact mul_le_of_le_one_left hc h1
    have hi₂le : (⌊q₂ * ((nn.length : ℚ) - 1)⌋).toNat ≤ nn.length - 1 :=
      floor_toNat_le_nat hposle₂
    have hstep : min ((⌊q₁ * ((nn.length : ℚ) - 1)⌋).toNat + 1) (nn.length - 1) ≤
        (⌊q₂ * ((nn.length : ℚ) - 1)⌋).toNat := by omega
    have hmid := sorted_getD_mono hs hstep (by omega)
    exact ⟨v₁, v₂, hv₁, hv₂, le_trans hhi₁ (le_trans hmid hlo₂)⟩
  · -- equal base indices: linear interpolation is monotone in the fraction
    have heq : (⌊q₁ * ((nn.length : ℚ) - 1)⌋).toNat = (⌊q₂ * ((nn.length : ℚ) - 1)⌋).toNat :=
      le_antisymm himono hge
    have hposle₂ : q₂ * ((nn.length : ℚ) - 1) ≤ ((nn.length - 1 : ℕ) : ℚ) := by
      rw [cast_pred_eq hn]
      exact mul_le_of_le_one_left hc h1
    have hi₂le := floor_toNat_le_nat hposle₂
    have hij : (⌊q₂ * ((nn.length : ℚ) - 1)⌋).toNat ≤
        min ((⌊q₂ * ((nn.length : ℚ) - 1)⌋).toNat + 1) (nn.length - 1) := by omega
    have hjlt : min ((⌊q₂ * ((nn.length : ℚ) - 1)⌋).toNat + 1) (nn.length - 1) <
        (sortAsc nn).length := by omega
    have hab := sorted_getD_mono hs hij hjlt
    refine ⟨_, _, pdQuantile_eq h q₁, pdQuantile_eq h q₂, ?_⟩
    rw [heq]
    nlinarith [mul_nonneg (sub_nonneg.mpr hposmono) (sub_nonneg.mpr hab)]

/-- The ordering chain of the pandas record: minimum, 25th, 50th, 75th
percentile and maximum of a non-empty value list are produced in
non-decreasing order. -/
theorem pandas_chain {nn : List ℚ} (h : nn ≠ []) :
    ∃ mn lq mq hq mx,
      listMinQ nn = some mn ∧ pdQuantile nn (1 / 4) = some lq ∧
        pdQuantile nn (1 / 2) = some mq ∧ pdQuantile nn (3 / 4) = some hq ∧
          listMaxQ nn = some mx ∧ mn ≤ lq ∧ lq ≤ mq ∧ mq ≤ hq ∧ hq ≤ mx := by
  have hn : 1 ≤ nn.length := List.length_pos.mpr h
  have hs := sortAsc_sorted nn
  have hsl := sortAsc_length nn
  have hsn : sortAsc nn ≠ [] := sortAsc_ne_nil h
  obtain ⟨lq, hlq, hlqlo, hlqhi⟩ := pdQuantile_pieces h (by norm_num) (by norm_num : (1:ℚ)/4 ≤ 1)
  obtain ⟨lq', mq, hlq', hmq, h1⟩ := pdQuantile_mono h (by norm_num) (by norm_num : (1:ℚ)/4 ≤ 1/2)
    (by norm_num)
  obtain ⟨mq', hq, hmq', hhq, h2⟩ := pdQuantile_mono h (by norm_num) (by norm_num : (1:ℚ)/2 ≤ 3/4)
    (by norm_num)
  obtain ⟨hq', hhq', hhqlo, hhqhi⟩ := pdQuantile_pieces h (by norm_num : (0:ℚ) ≤ 3/4)
    (by norm_num)
  obtain rfl : lq = lq' := by rw [hlq] at hlq'; exact (Option.some_inj.mp hlq'.symm).symm
  obtain rfl : mq = mq' := by rw [hmq] at hmq'; exact (Option.some_inj.mp hmq'.symm).symm
  obtain rfl : hq = hq' := by rw [hhq] at hhq'; exact (Option.some_inj.mp hhq'.symm).symm
  refine ⟨(sortAsc nn).getD 0 0, lq, mq, hq, (sortAsc nn).getD (nn.length - 1) 0,
    head?_eq_getD hsn, hlq, hmq, hhq, ?_, ?_, h1, h2, ?_⟩
  · rw [listMaxQ, getLast?_eq_getD hsn, hsl]
  · exact le_trans (sorted_getD_mono hs (Nat.zero_le _)
      (by have := floor_toNat_le_nat (x := 1/4 * ((nn.length : ℚ) - 1)) (m := nn.length - 1)
            (by rw [cast_pred_eq hn]; exact mul_le_of_le_one_left (cast_sub_one_nonneg hn) (by norm_num));
          omega)) hlqlo
  · refine le_trans hhqhi (sorted_getD_mono hs (min_le_right _ _) (by omega))

/-! Claim theorems. -/

/-- C1 (evidence of the code defect): a `TabularDataContext` constructed with
the token `auto` does not inspect the input type and dispatch; calling
`calculate_tabular_statistics` evaluates `"auto".describe(data)`, which
raises `AttributeError` for a pandas and for a polars dataframe alike,
instead of delegating to the matching strategy. -/
theorem auto_token_raises_attribute_error :
    (TabularDataContext.init (StrategyArg.token "auto")).calculate_tabular_statistics
        (FrameObj.pandasDF exampleFrame) =
      Except.error (PyError.attributeError "str object has no attribute describe") ∧
    (TabularDataContext.init (StrategyArg.token "auto")).calculate_tabular_statistics
        (FrameObj.polarsDF exampleFrame) =
      Except.error (PyError.attributeError "str object has no attribute describe") :=
  ⟨rfl, rfl⟩

/-- C2: on the dataframe `{a: [1, 2], b: [A, B]}` the polars strategy yields
for column `a` count 2, mean 3/2, squared std 1/2 (std = √(1/2) ≈ 0.70710678,
rendered `0.7071` at four decimals), min 1, max 2, and nearest-interpolation
quantiles 1/2/2; the pandas strategy yields the same count, mean, std, min and
max but linear-interpolation quantiles 5/4, 3/2, 7/4; column `b` carries only
count 2 under both; the quantile values genuinely differ between engines. -/
theorem exampleFrame_describe_results :
    PolarsTabularAnalyses.describe exampleFrame =
      [{ column_name := "a", count := some 2, highest_quantile := some 2,
         middle_quantile := some 2, lowest_quantile := some 1, max_val := some 2,
         min_val := some 1, mean_val := some (3 / 2), std_val_sq := some (1 / 2) },
       { column_name := "b", count := some 2 }] ∧
      PandasTabularAnalyses.describe exampleFrame =
        Except.ok
          [{ column_name := "a", count := some 2, highest_quantile := some (7 / 4),
             middle_quantile := some (3 / 2), lowest_quantile := some (5 / 4),
             max_val := some 2, min_val := some 1, mean_val := some (3 / 2),
             std_val_sq := some (1 / 2) },
           { column_name := "b", count := some 2 }] ∧
        fmtSqrt4 (1 / 2) = "0.7071" ∧
          (1 : ℚ) ≠ 5 / 4 ∧ (2 : ℚ) ≠ 3 / 2 ∧ (2 : ℚ) ≠ 7 / 4 := by
  refine ⟨?_, ?_, ?_, by norm_num, by norm_num, by norm_num⟩
  · norm_num +decide [PolarsTabularAnalyses.describe, exampleFrame, polarsDescribeColumn,
      dropNulls, plQuantile, nearestIdx, sortAsc, meanQ, stdSqQ, sampleVarQ, listMinQ, listMaxQ,
      List.insertionSort, List.orderedInsert, List.filterMap_cons, id_eq]
  · norm_num +decide [PandasTabularAnalyses.describe, exampleFrame, pandasDescribeSummary,
      pandasToStatistics, pandasRecordOf, pick, pdIndexLabels, pdNumericCell, pdTextCell,
      pdCellOf, dropNulls, ColData.isNumeric, Except.map, pdQuantile, sortAsc, meanQ, stdSqQ,
      sampleVarQ, listMinQ, listMaxQ, List.insertionSort, List.orderedInsert,
      List.filterMap_cons, id_eq]
  · rw [fmtSqrt4, sqrtRound4]
    have h1 : (⌊(1 / 2 : ℚ) * 100000000⌋) = (50000000 : ℤ) := by norm_num
    rw [h1]
    have h2 : ((50000000 : ℤ)).toNat = 50000000 := rfl
    rw [h2]
    have h3 : Nat.sqrt 50000000 = 7071 := by norm_num
    rw [h3]
    rw [if_neg (show ¬(((2 * 7071 + 1 : ℕ) : ℚ) ^ 2 ≤ 4 * ((1 / 2 : ℚ) * 100000000)) by
      norm_num)]
    decide

/-- C8 (evidence of the code defect): a backend token outside the allowed
set, such as `spark`, is accepted by the constructor without any validation
and stored as-is; the failure surfaces only when statistics are requested,
and it is an `AttributeError` from the attribute lookup, not a `ValueError`
naming the token and the allowed set. -/
theorem unknown_token_accepted_then_attribute_error :
    (TabularDataContext.init (StrategyArg.token "spark")).strategy =
      StrategyArg.token "spark" ∧
    (TabularDataContext.init (StrategyArg.token "spark")).calculate_tabular_statistics
        (FrameObj.pandasDF exampleFrame) =
      Except.error (PyError.attributeError "str object has no attribute describe") :=
  ⟨rfl, rfl⟩

/-- C9: the constructor accepts every strategy argument (instance, arbitrary
string token, or None) without validation; the `strategy` property returns
the stored value unchanged; an unusable specifier fails only when
`calculate_tabular_statistics` invokes `describe` on it, raising
`AttributeError`. -/
theorem context_stores_argument_unvalidated :
    (∀ arg : StrategyArg, (TabularDataContext.init arg).strategy = arg) ∧
      (∀ (s : String) (data : FrameObj),
        (TabularDataContext.init (StrategyArg.token s)).calculate_tabular_statistics data =
          Except.error (PyError.attributeError "str object has no attribute describe")) ∧
        (∀ data : FrameObj,
          (TabularDataContext.init StrategyArg.noneArg).calculate_tabular_statistics data =
            Except.error (PyError.attributeError "NoneType object has no attribute describe")) :=
  ⟨fun _ => rfl, fun _ _ => rfl, fun _ => rfl⟩

/-- C10: `ensure_statistics` returns the cached list unchanged without
invoking the strategy when a cache is present (even a cache that disagrees
with the data, and even when the stored specifier would fail), runs the
analysis exactly when the cache is empty, while `analyse` recomputes on
every call independently of the cache and overwrites it with the result. -/
theorem ensure_statistics_caches_analyse_reruns :
    (∀ (d : Datasheet) (s : List TabularStatistics),
      d.stats_cache = some s → d.ensure_statistics = Except.ok (s, d)) ∧
      (∀ d : Datasheet, d.stats_cache = none → d.ensure_statistics = d.analyse) ∧
        (∀ (d : Datasheet) (stats : List TabularStatistics) (d2 : Datasheet),
          d.analyse = Except.ok (stats, d2) → d2.stats_cache = some stats) ∧
          (∀ (d : Datasheet) (cache : Option (List TabularStatistics)),
            (Datasheet.mk d.data d.analysis_specifier cache).analyse.map Prod.fst =
              d.analyse.map Prod.fst) := by
  refine ⟨?_, ?_, ?_, ?_⟩
  · intro d s h
    simp [Datasheet.ensure_statistics, h]
  · intro d h
    simp [Datasheet.ensure_statistics, h, Datasheet.analyse]
  · intro d stats d2 h
    rw [Datasheet.analyse, Datasheet.run_analyses] at h
    cases hcalc :
        (TabularDataContext.init d.analysis_specifier).calculate_tabular_statistics d.data with
    | error e => rw [hcalc] at h; exact absurd h (by simp)
    | ok st =>
      rw [hcalc] at h
      obtain ⟨rfl, rfl⟩ : st = stats ∧ { d with stats_cache := some st } = d2 := by
        simpa using h
      rfl
  · intro d cache
    rw [Datasheet.analyse, Datasheet.analyse, Datasheet.run_analyses, Datasheet.run_analyses]

/-- C5 (counterexample): the record of a non-numeric column (column `b` of
the running example, count 2 and every other field absent) renders as just
two lines — the header and the count — with no placeholder token anywhere:
the seven optional bullets are omitted, not rendered as `N/A`. -/
theorem markdown_omits_absent_fields :
    ({ column_name := "b", count := some 2 } : TabularStatistics).markdownLines =
      ["**Column: b**", "- Count: 2.0"] ∧
    ({ column_name := "b", count := some 2 } : TabularStatistics).markdownLines.length ≠ 9 := by
  have h2 : pyFloatRepr 2 = "2.0" := by
    rw [pyFloatRepr]
    have habs : |(2 : ℚ)| = 2 := abs_of_nonneg (by norm_num)
    rw [habs]
    decide
  constructor
  · show ["**Column: b**", "- Count: " ++ optFloatRepr (some 2)] = _
    rw [show optFloatRepr (some 2) = pyFloatRepr 2 from rfl, h2]
    decide
  · show (["**Column: b**", "- Count: " ++ optFloatRepr (some 2)]).length ≠ 9
    decide

/-- C5 (amended): `markdown` renders the header and the count
unconditionally (an absent count prints as the Python `None` literal), then
one bullet per present field in the fixed order Mean, Standard Deviation,
Min, Max, 25th Percentile, Median, 75th Percentile; Mean and Standard
Deviation are formatted to four decimal places, the remaining values use
default float conversion; absent fields produce no bullet and no
placeholder.  The `N/A` placeholder with uniform four-decimal formatting
lives in the compiler helper `_format_number`, not in `markdown`. -/
theorem markdown_structure :
    (∀ r : TabularStatistics, r.markdownLines = markdownContractLines r) ∧
      (∀ r : TabularStatistics, r.markdown = String.intercalate "\n" (markdownContractLines r)) ∧
        formatNumber none = "N/A" ∧ ∀ x : ℚ, formatNumber (some x) = fmt4 x := by
  have hlines : ∀ r : TabularStatistics, r.markdownLines = markdownContractLines r := by
    intro r
    rcases r with ⟨name, c, hqf, mqf, lqf, mxf, mnf, mvf, svf⟩
    cases hqf <;> cases mqf <;> cases lqf <;> cases mxf <;> cases mnf <;> cases mvf <;>
      cases svf <;> rfl
  refine ⟨hlines, ?_, rfl, fun _ => rfl⟩
  intro r
  rw [TabularStatistics.markdown, hlines r]

/-- C6 (counterexample): on a dataframe with no columns the pandas strategy
does not return an empty record list — the underlying `describe` raises a
`ValueError` — while the polars strategy returns the empty list. -/
theorem pandas_describe_empty_frame_error :
    PandasTabularAnalyses.describe ([] : Frame) =
      Except.error (PyError.valueError "Cannot describe a DataFrame without columns") ∧
    PolarsTabularAnalyses.describe ([] : Frame) = [] :=
  ⟨rfl, rfl⟩

/-- C6 (amended): the polars strategy returns, for every dataframe, exactly
one record per column in input order with matching column names; the pandas
strategy does the same for every dataframe with at least one column, and
raises a `ValueError` on the zero-column dataframe. -/
theorem describe_column_names_aligned :
    (∀ data : Frame,
      (PolarsTabularAnalyses.describe data).map TabularStatistics.column_name =
        data.map Prod.fst) ∧
      ∀ data : Frame, data ≠ [] →
        ∃ recs, PandasTabularAnalyses.describe data = Except.ok recs ∧
          recs.map TabularStatistics.column_name = data.map Prod.fst := by
  constructor
  · intro data
    rw [PolarsTabularAnalyses.describe, List.map_map]
    refine List.map_congr_left (fun c _ => ?_)
    rcases c with ⟨name, col⟩
    cases col with
    | numeric cells =>
      show (polarsDescribeColumn (name, ColData.numeric cells)).column_name = name
      rw [polarsDescribeColumn]
      split <;> rfl
    | text cells => rfl
  · intro data h
    rw [PandasTabularAnalyses.describe, pandasDescribeSummary,
      if_neg (by simpa [List.isEmpty_iff] using h)]
    refine ⟨_, rfl, ?_⟩
    rw [pandasToStatistics]
    simp only [List.map_map]
    exact List.map_congr_left (fun c _ => rfl)

/-- Witness for C6 at the running example frame. -/
theorem describe_column_names_aligned_witness :
    exampleFrame ≠ [] ∧
      ∃ recs, PandasTabularAnalyses.describe exampleFrame = Except.ok recs ∧
        recs.map TabularStatistics.column_name = exampleFrame.map Prod.fst :=
  ⟨by decide, describe_column_names_aligned.2 exampleFrame (by decide)⟩

/-- C7: on a dataframe with no numeric column the pandas describe summary
index carries none of the seven numeric row labels, yet the strategy returns
a record per column without raising: every field whose label is missing from
the index is set absent by the `pick` guard, and only the count survives. -/
theorem pandas_missing_labels_yield_absent_fields :
    ∀ data : Frame, data ≠ [] → (∀ c ∈ data, c.2.isNumeric = false) →
      ("25%" ∉ pdIndexLabels (data.any fun c => c.2.isNumeric)
          (data.any fun c => !c.2.isNumeric) ∧
        "50%" ∉ pdIndexLabels (data.any fun c => c.2.isNumeric)
          (data.any fun c => !c.2.isNumeric) ∧
        "75%" ∉ pdIndexLabels (data.any fun c => c.2.isNumeric)
          (data.any fun c => !c.2.isNumeric) ∧
        "mean" ∉ pdIndexLabels (data.any fun c => c.2.isNumeric)
          (data.any fun c => !c.2.isNumeric) ∧
        "std" ∉ pdIndexLabels (data.any fun c => c.2.isNumeric)
          (data.any fun c => !c.2.isNumeric) ∧
        "min" ∉ pdIndexLabels (data.any fun c => c.2.isNumeric)
          (data.any fun c => !c.2.isNumeric) ∧
        "max" ∉ pdIndexLabels (data.any fun c => c.2.isNumeric)
          (data.any fun c => !c.2.isNumeric)) ∧
      ∃ recs, PandasTabularAnalyses.describe data = Except.ok recs ∧
        recs.length = data.length ∧
        ∀ r ∈ recs, (∃ n : ℚ, r.count = some n) ∧ r.mean_val = none ∧
          r.std_val_sq = none ∧ r.min_val = none ∧ r.max_val = none ∧
          r.lowest_quantile = none ∧ r.middle_quantile = none ∧
          r.highest_quantile = none := by
  intro data hne hall
  have hnum : (data.any fun c => c.2.isNumeric) = false := by
    rw [List.any_eq_false]
    intro c hc
    simp [hall c hc]
  have hobj : (data.any fun c => !c.2.isNumeric) = true := by
    rw [List.any_eq_true]
    obtain ⟨c, hc⟩ := List.exists_mem_of_ne_nil data hne
    exact ⟨c, hc, by simp [hall c hc]⟩
  rw [hnum, hobj]
  refine ⟨by decide, ?_⟩
  rw [PandasTabularAnalyses.describe, pandasDescribeSummary,
    if_neg (by simpa [List.isEmpty_iff] using hne)]
  rw [hnum, hobj]
  refine ⟨_, rfl, ?_, ?_⟩
  · rw [pandasToStatistics]
    simp
  · intro r hr
    rw [pandasToStatistics] at hr
    simp only [List.map_map] at hr
    obtain ⟨c, hcmem, rfl⟩ := List.mem_map.mp hr
    rcases c with ⟨name, col⟩
    cases col with
    | numeric cells => exact absurd (hall _ hcmem) (by simp [ColData.isNumeric])
    | text cells =>
      refine ⟨⟨((dropNulls cells).length : ℚ), ?_⟩, ?_, ?_, ?_, ?_, ?_, ?_, ?_⟩ <;>
        simp +decide [pandasRecordOf, pick, pdCellOf, pdTextCell, pdIndexLabels]

/-- Witness for C7 on a one-column text dataframe. -/
theorem pandas_missing_labels_yield_absent_fields_witness :
    ("25%" ∉ pdIndexLabels
        (([("b", ColData.text [some "A", some "B"])] : Frame).any fun c => c.2.isNumeric)
        (([("b", ColData.text [some "A", some "B"])] : Frame).any fun c => !c.2.isNumeric) ∧
      "50%" ∉ pdIndexLabels
        (([("b", ColData.text [some "A", some "B"])] : Frame).any fun c => c.2.isNumeric)
        (([("b", ColData.text [some "A", some "B"])] : Frame).any fun c => !c.2.isNumeric) ∧
      "75%" ∉ pdIndexLabels
        (([("b", ColData.text [some "A", some "B"])] : Frame).any fun c => c.2.isNumeric)
        (([("b", ColData.text [some "A", some "B"])] : Frame).any fun c => !c.2.isNumeric) ∧
      "mean" ∉ pdIndexLabels
        (([("b", ColData.text [some "A", some "B"])] : Frame).any fun c => c.2.isNumeric)
        (([("b", ColData.text [some "A", some "B"])] : Frame).any fun c => !c.2.isNumeric) ∧
      "std" ∉ pdIndexLabels
        (([("b", ColData.text [some "A", some "B"])] : Frame).any fun c => c.2.isNumeric)
        (([("b", ColData.text [some "A", some "B"])] : Frame).any fun c => !c.2.isNumeric) ∧
      "min" ∉ pdIndexLabels
        (([("b", ColData.text [some "A", some "B"])] : Frame).any fun c => c.2.isNumeric)
        (([("b", ColData.text [some "A", some "B"])] : Frame).any fun c => !c.2.isNumeric) ∧
      "max" ∉ pdIndexLabels
        (([("b", ColData.text [some "A", some "B"])] : Frame).any fun c => c.2.isNumeric)
        (([("b", ColData.text [some "A", some "B"])] : Frame).any fun c => !c.2.isNumeric)) ∧
    ∃ recs,
      PandasTabularAnalyses.describe ([("b", ColData.text [some "A", some "B"])] : Frame) =
        Except.ok recs ∧
      recs.length = ([("b", ColData.text [some "A", some "B"])] : Frame).length ∧
      ∀ r ∈ recs, (∃ n : ℚ, r.count = some n) ∧ r.mean_val = none ∧
        r.std_val_sq = none ∧ r.min_val = none ∧ r.max_val = none ∧
        r.lowest_quantile = none ∧ r.middle_quantile = none ∧
        r.highest_quantile = none :=
  pandas_missing_labels_yield_absent_fields [("b", ColData.text [some "A", some "B"])]
    (by decide) (by decide)

/-- Zipping a list with its own image lists the pairs `(a, f a)`. -/
theorem zip_self_map : ∀ (l : List α) (f : α → β), l.zip (l.map f) = l.map fun a => (a, f a)
  | [], _ => rfl
  | a :: l, f => by
    rw [List.map_cons, List.zip_cons_cons, zip_self_map l f, List.map_cons]

/-- The `count` row label belongs to every pandas describe index. -/
theorem count_mem_pdIndexLabels (a b : Bool) : "count" ∈ pdIndexLabels a b := by
  cases a <;> cases b <;> decide

/-- When at least one column is numeric, the describe index carries all
seven numeric row labels besides `count`. -/
theorem numeric_labels_mem_pdIndexLabels (b : Bool) :
    "mean" ∈ pdIndexLabels true b ∧ "std" ∈ pdIndexLabels true b ∧
      "min" ∈ pdIndexLabels true b ∧ "25%" ∈ pdIndexLabels true b ∧
        "50%" ∈ pdIndexLabels true b ∧ "75%" ∈ pdIndexLabels true b ∧
          "max" ∈ pdIndexLabels true b := by
  cases b <;> decide

/-- Presence contract of one statistics record against its source column:
the count is always populated; a non-numeric column populates nothing else;
a numeric column with at least one non-null value populates mean, min, max
and the three quantiles with `min ≤ 25th ≤ 50th ≤ 75th ≤ max`, and
populates the standard deviation exactly when at least two non-null values
exist. -/
def presenceInvariant (c : String × ColData) (r : TabularStatistics) : Prop :=
  (∃ n, r.count = some n) ∧
    (c.2.isNumeric = false →
      r.mean_val = none ∧ r.std_val_sq = none ∧ r.min_val = none ∧ r.max_val = none ∧
        r.lowest_quantile = none ∧ r.middle_quantile = none ∧ r.highest_quantile = none) ∧
      ∀ cells, c.2 = ColData.numeric cells → dropNulls cells ≠ [] →
        (∃ m, r.mean_val = some m) ∧
          (r.std_val_sq.isSome = true ↔ 2 ≤ (dropNulls cells).length) ∧
            ∃ mn lq mq hq mx, r.min_val = some mn ∧ r.lowest_quantile = some lq ∧
              r.middle_quantile = some mq ∧ r.highest_quantile = some hq ∧
                r.max_val = some mx ∧ mn ≤ lq ∧ lq ≤ mq ∧ mq ≤ hq ∧ hq ≤ mx

/-- Every polars record satisfies the presence contract of its column. -/
theorem polars_record_presence (c : String × ColData) :
    presenceInvariant c (polarsDescribeColumn c) := by
  rcases c with ⟨name, col⟩
  cases col with
  | text cells =>
    exact ⟨⟨_, rfl⟩, fun _ => ⟨rfl, rfl, rfl, rfl, rfl, rfl, rfl⟩,
      fun cells' hcell => absurd hcell (by simp)⟩
  | numeric cells =>
    rcases Nat.eq_zero_or_pos (dropNulls cells).length with h0 | hpos
    · have hrec : polarsDescribeColumn (name, ColData.numeric cells) =
          { column_name := name, count := some 0 } := by
        simp only [polarsDescribeColumn]
        rw [if_neg (by omega)]
      refine ⟨⟨0, by rw [hrec]⟩, fun habs => absurd habs (by simp [ColData.isNumeric]),
        fun cells' hcell hnn => ?_⟩
      injection hcell with hc
      subst hc
      exact absurd (List.length_pos.mpr hnn) (by omega)
    · have hne : dropNulls cells ≠ [] := by
        intro hnil
        rw [hnil] at hpos
        simp at hpos
      have hrec : polarsDescribeColumn (name, ColData.numeric cells) =
          { column_name := name
            count := some ((dropNulls cells).length : ℚ)
            highest_quantile := plQuantile (dropNulls cells) (3 / 4)
            middle_quantile := plQuantile (dropNulls cells) (1 / 2)
            lowest_quantile := plQuantile (dropNulls cells) (1 / 4)
            max_val := listMaxQ (dropNulls cells)
            min_val := listMinQ (dropNulls cells)
            mean_val := some (meanQ (dropNulls cells))
            std_val_sq := stdSqQ (dropNulls cells) } := by
        simp only [polarsDescribeColumn]
        rw [if_pos hpos]
      obtain ⟨mn, lq, mq, hq, mx, hmn, hlq, hmq, hhq, hmx, o1, o2, o3, o4⟩ := polars_chain hne
      refine ⟨⟨_, by rw [hrec]⟩, fun habs => absurd habs (by simp [ColData.isNumeric]),
        fun cells' hcell hnn => ?_⟩
      injection hcell with hc
      subst hc
      rw [hrec]
      refine ⟨⟨_, rfl⟩, ?_, mn, lq, mq, hq, mx, hmn, hlq, hmq, hhq, hmx, o1, o2, o3, o4⟩
      rw [stdSqQ]
      by_cases h2 : 2 ≤ (dropNulls cells).length
      · simp [h2]
      · simp [h2]

/-- Every pandas record satisfies the presence contract of its column,
for any describe index consistent with the frame (a numeric column forces
the numeric row labels into the index). -/
theorem pandas_record_presence (hasNum hasObj : Bool) (c : String × ColData)
    (hnum : c.2.isNumeric = true → hasNum = true) :
    presenceInvariant c
      (pandasRecordOf (pdIndexLabels hasNum hasObj) (c.1, pdCellOf c.2)) := by
  rcases c with ⟨name, col⟩
  cases col with
  | text cells =>
    refine ⟨⟨((dropNulls cells).length : ℚ), ?_⟩, fun _ => ?_,
      fun cells' hcell => absurd hcell (by simp)⟩
    · show pick _ (pdCellOf (ColData.text cells)) "count" = _
      rw [pick, if_pos (count_mem_pdIndexLabels _ _)]
      rfl
    · refine ⟨?_, ?_, ?_, ?_, ?_, ?_, ?_⟩
      · show pick _ (pdCellOf (ColData.text cells)) "mean" = none
        rw [pick]; split <;> rfl
      · show pick _ (pdCellOf (ColData.text cells)) "std" = none
        rw [pick]; split <;> rfl
      · show pick _ (pdCellOf (ColData.text cells)) "min" = none
        rw [pick]; split <;> rfl
      · show pick _ (pdCellOf (ColData.text cells)) "max" = none
        rw [pick]; split <;> rfl
      · show pick _ (pdCellOf (ColData.text cells)) "25%" = none
        rw [pick]; split <;> rfl
      · show pick _ (pdCellOf (ColData.text cells)) "50%" = none
        rw [pick]; split <;> rfl
      · show pick _ (pdCellOf (ColData.text cells)) "75%" = none
        rw [pick]; split <;> rfl
  | numeric cells =>
    have hH : hasNum = true := hnum rfl
    subst hH
    obtain ⟨hmean, hstd, hminm, h25, h50, h75, hmaxm⟩ := numeric_labels_mem_pdIndexLabels hasObj
    refine ⟨⟨((dropNulls cells).length : ℚ), ?_⟩,
      fun habs => absurd habs (by simp [ColData.isNumeric]), fun cells' hcell hnn => ?_⟩
    · show pick _ (pdCellOf (ColData.numeric cells)) "count" = _
      rw [pick, if_pos (count_mem_pdIndexLabels _ _)]
      rfl
    · injection hcell with hc
      subst hc
      have hlen0 : ¬(dropNulls cells).length = 0 := by
        intro h0
        exact hnn (List.length_eq_zero.mp h0)
      obtain ⟨mn, lq, mq, hq, mx, hmn, hlq, hmq, hhq, hmx, o1, o2, o3, o4⟩ := pandas_chain hnn
      refine ⟨⟨meanQ (dropNulls cells), ?_⟩, ?_, mn, lq, mq, hq, mx, ?_, ?_, ?_, ?_, ?_,
        o1, o2, o3, o4⟩
      · show pick _ (pdCellOf (ColData.numeric cells)) "mean" = _
        rw [pick, if_pos hmean]
        show pdNumericCell (dropNulls cells) "mean" = _
        simp +decide [pdNumericCell, hlen0]
      · show (pick _ (pdCellOf (ColData.numeric cells)) "std").isSome = true ↔ _
        rw [pick, if_pos hstd]
        show (pdNumericCell (dropNulls cells) "std").isSome = true ↔ _
        simp +decide only [pdNumericCell, hlen0, if_false, if_true, stdSqQ]
        by_cases h2 : 2 ≤ (dropNulls cells).length
        · simp [h2]
        · simp [h2]
      · show pick _ (pdCellOf (ColData.numeric cells)) "min" = _
        rw [pick, if_pos hminm]
        show pdNumericCell (dropNulls cells) "min" = _
        simpa +decide [pdNumericCell, hlen0] using hmn
      · show pick _ (pdCellOf (ColData.numeric cells)) "25%" = _
        rw [pick, if_pos h25]
        show pdNumericCell (dropNulls cells) "25%" = _
        simpa +decide [pdNumericCell, hlen0] using hlq
      · show pick _ (pdCellOf (ColData.numeric cells)) "50%" = _
        rw [pick, if_pos h50]
        show pdNumericCell (dropNulls cells) "50%" = _
        simpa +decide [pdNumericCell, hlen0] using hmq
      · show pick _ (pdCellOf (ColData.numeric cells)) "75%" = _
        rw [pick, if_pos h75]
        show pdNumericCell (dropNulls cells) "75%" = _
        simpa +decide [pdNumericCell, hlen0] using hhq
      · show pick _ (pdCellOf (ColData.numeric cells)) "max" = _
        rw [pick, if_pos hmaxm]
        show pdNumericCell (dropNulls cells) "max" = _
        simpa +decide [pdNumericCell, hlen0] using hmx

/-- C3 (counterexample): a numeric column holding the single value `1` has
one non-null value, yet under both strategies the record's standard
deviation is absent (sample std with `ddof = 1` is undefined for one value)
while mean and the order statistics are populated — so not all eight fields
are populated. -/
theorem single_value_numeric_column_std_absent :
    (polarsDescribeColumn ("a", ColData.numeric [some 1])).std_val_sq = none ∧
      (polarsDescribeColumn ("a", ColData.numeric [some 1])).mean_val = some 1 ∧
        ∃ recs,
          PandasTabularAnalyses.describe [("a", ColData.numeric [some 1])] = Except.ok recs ∧
            recs.map TabularStatistics.std_val_sq = [none] ∧
              recs.map TabularStatistics.mean_val = [some 1] := by
  refine ⟨?_, ?_, _, rfl, ?_, ?_⟩ <;>
    norm_num +decide [polarsDescribeColumn, dropNulls, plQuantile, nearestIdx, sortAsc, meanQ,
      stdSqQ, sampleVarQ, listMinQ, listMaxQ, List.insertionSort, List.orderedInsert,
      List.filterMap_cons, id_eq, PandasTabularAnalyses.describe, pandasDescribeSummary,
      pandasToStatistics, pandasRecordOf, pick, pdIndexLabels, pdNumericCell, pdCellOf,
      ColData.isNumeric, Except.map, pdQuantile]

/-- C3 (amended): every record of either strategy satisfies the presence
contract: count always populated; a non-numeric column populates nothing
else; a numeric column with at least one non-null value populates the seven
fields other than the standard deviation, with
`min ≤ 25th ≤ 50th ≤ 75th ≤ max`, and populates the standard deviation
exactly when at least two non-null values exist. -/
theorem statistics_presence_invariant :
    ∀ data : Frame,
      (∀ p ∈ data.zip (PolarsTabularAnalyses.describe data), presenceInvariant p.1 p.2) ∧
        (data ≠ [] →
          ∃ recs, PandasTabularAnalyses.describe data = Except.ok recs ∧
            recs.length = data.length ∧
              ∀ p ∈ data.zip recs, presenceInvariant p.1 p.2) := by
  intro data
  constructor
  · intro p hp
    rw [PolarsTabularAnalyses.describe, zip_self_map] at hp
    obtain ⟨c, hcmem, rfl⟩ := List.mem_map.mp hp
    exact polars_record_presence c
  · intro hne
    rw [PandasTabularAnalyses.describe, pandasDescribeSummary,
      if_neg (by simpa [List.isEmpty_iff] using hne)]
    refine ⟨_, rfl, ?_, ?_⟩
    · rw [pandasToStatistics]
      simp
    · intro p hp
      rw [pandasToStatistics] at hp
      simp only [List.map_map] at hp
      rw [zip_self_map] at hp
      obtain ⟨c, hcmem, rfl⟩ := List.mem_map.mp hp
      exact pandas_record_presence _ _ c
        (fun hnumeric => List.any_eq_true.mpr ⟨c, hcmem, by simp [hnumeric]⟩)

/-- Witness for C3 on a one-column numeric dataframe. -/
theorem statistics_presence_invariant_witness :
    presenceInvariant ("a", ColData.numeric [some 1, some 2])
        (polarsDescribeColumn ("a", ColData.numeric [some 1, some 2])) ∧
      ∃ recs,
        PandasTabularAnalyses.describe ([("a", ColData.numeric [some 1, some 2])] : Frame) =
          Except.ok recs ∧
          recs.length = 1 ∧
            ∀ p ∈ ([("a", ColData.numeric [some 1, some 2])] : Frame).zip recs,
              presenceInvariant p.1 p.2 :=
  ⟨(statistics_presence_invariant [("a", ColData.numeric [some 1, some 2])]).1 _
      (List.mem_singleton.mpr rfl),
    (statistics_presence_invariant [("a", ColData.numeric [some 1, some 2])]).2 (by decide)⟩

/-- C4 (counterexample): on the values `[1, 2]` the polars strategy's 25th
percentile is `1` (nearest interpolation), while linear interpolation — the
method the claim asserts, embodied by `pdQuantile` — yields `5/4`; the two
disagree. -/
theorem polars_quantile_not_linear :
    (polarsDescribeColumn ("a", ColData.numeric [some 1, some 2])).lowest_quantile = some 1 ∧
    pdQuantile [1, 2] (1 / 4) = some (5 / 4) ∧
    (polarsDescribeColumn ("a", ColData.numeric [some 1, some 2])).lowest_quantile ≠
      pdQuantile [1, 2] (1 / 4) := by
  have h1 : (polarsDescribeColumn ("a", ColData.numeric [some 1, some 2])).lowest_quantile =
      some 1 := by
    norm_num +decide [polarsDescribeColumn, dropNulls, plQuantile, nearestIdx, sortAsc,
      List.insertionSort, List.orderedInsert, List.filterMap_cons, id_eq]
  have h2 : pdQuantile [1, 2] (1 / 4) = some (5 / 4) := by
    norm_num +decide [pdQuantile, sortAsc, List.insertionSort, List.orderedInsert]
  refine ⟨h1, h2, ?_⟩
  rw [h1, h2]
  norm_num

/-- C4 (amended): for a numeric column with at least one non-null value the
polars strategy computes its whole record from the non-null values alone
(null cells are immaterial), with mean `sum/n`, sample variance (squared
std) only when `n ≥ 2`, min and max the ends of the sorted values, and the
three percentiles by nearest interpolation: the sorted value at index
`⌊q·(n−1) + 1/2⌋` — not by linear interpolation. -/
theorem polars_numeric_statistics_formulas :
    ∀ (name : String) (cells : List (Option ℚ)), dropNulls cells ≠ [] →
      polarsDescribeColumn (name, ColData.numeric cells) =
          polarsDescribeColumn (name, ColData.numeric ((dropNulls cells).map some)) ∧
        polarsDescribeColumn (name, ColData.numeric cells) =
          { column_name := name
            count := some ((dropNulls cells).length : ℚ)
            highest_quantile := some ((sortAsc (dropNulls cells)).getD
              ((⌊(3 / 4 : ℚ) * (((dropNulls cells).length : ℚ) - 1) + 1 / 2⌋).toNat) 0)
            middle_quantile := some ((sortAsc (dropNulls cells)).getD
              ((⌊(1 / 2 : ℚ) * (((dropNulls cells).length : ℚ) - 1) + 1 / 2⌋).toNat) 0)
            lowest_quantile := some ((sortAsc (dropNulls cells)).getD
              ((⌊(1 / 4 : ℚ) * (((dropNulls cells).length : ℚ) - 1) + 1 / 2⌋).toNat) 0)
            max_val := (sortAsc (dropNulls cells)).getLast?
            min_val := (sortAsc (dropNulls cells)).head?
            mean_val := some ((dropNulls cells).sum / ((dropNulls cells).length : ℚ))
            std_val_sq :=
              if 2 ≤ (dropNulls cells).length then
                some (((dropNulls cells).map
                    (fun x =>
                      (x - (dropNulls cells).sum / ((dropNulls cells).length : ℚ)) ^ 2)).sum /
                  (((dropNulls cells).length : ℚ) - 1))
              else none } := by
  intro name cells h
  have hlen : 0 < (dropNulls cells).length := List.length_pos.mpr h
  have hdrop : dropNulls ((dropNulls cells).map some) = dropNulls cells := by
    rw [dropNulls, dropNulls, List.filterMap_map]
    exact List.filterMap_some _
  constructor
  · simp only [polarsDescribeColumn, hdrop]
  · simp only [polarsDescribeColumn, if_pos hlen, plQuantile_eq h, nearestIdx, listMinQ,
      listMaxQ, meanQ, stdSqQ, sampleVarQ]

/-- Witness for C4: on the column `[1, null, 2]` the null cell is dropped
and the record coincides with that of the column `[1, 2]`. -/
theorem polars_numeric_statistics_formulas_witness :
    dropNulls [some (1 : ℚ), none, some 2] ≠ [] ∧
    polarsDescribeColumn ("a", ColData.numeric [some 1, none, some 2]) =
      polarsDescribeColumn ("a", ColData.numeric [some 1, some 2]) :=
  ⟨by decide, (polars_numeric_statistics_formulas "a" [some 1, none, some 2] (by decide)).1⟩

/-- Witness for C10 at a concrete datasheet: a cached sheet with a broken
token specifier still returns its cache through `ensure_statistics`, and an
uncached sheet delegates to `analyse`. -/
theorem ensure_statistics_caches_analyse_reruns_witness :
    (Datasheet.mk (FrameObj.polarsDF exampleFrame) (StrategyArg.token "auto")
        (some [{ column_name := "z" }])).ensure_statistics =
      Except.ok ([{ column_name := "z" }],
        Datasheet.mk (FrameObj.polarsDF exampleFrame) (StrategyArg.token "auto")
          (some [{ column_name := "z" }])) ∧
    (Datasheet.mk (FrameObj.polarsDF exampleFrame) (StrategyArg.token "auto")
        none).ensure_statistics =
      (Datasheet.mk (FrameObj.polarsDF exampleFrame) (StrategyArg.token "auto") none).analyse :=
  ⟨ensure_statistics_caches_analyse_reruns.1 _ _ rfl,
    ensure_statistics_caches_analyse_reruns.2.1 _ rfl⟩

end DfD
